import Mathlib

/-!
Verification of the service-lifecycle control plane in
`src/server/website/fabfile.py` (OtterTune admin tasks).

The fabric tasks are embedded shallowly.  Every external command the
fabfile issues through fabric `local` is a constructor of `Cmd`; the
environment `Env` is an oracle giving each command its exit code and
captured stdout; a task is a function from `Env` to a pair of the event
trace it emitted (commands run and lines printed, in order) and an
`Except`-style outcome mirroring Python exceptions and fabric aborts
(`local` raises `SystemExit` on a nonzero exit code unless run under
`settings(warn_only=True)`).

Module-level glue in the source (hostname probe, supervisord
initialization, command-string prefixes) only chooses the literal command
strings; it is abstracted into the `Cmd` tags.  The shell-delegation tasks
out of the spec scope (`reset_website`, `dumpdata`, ...) are not modelled.
-/

/-- The two canonical status values: `Status = namedtuple(...)`,
`STATUS = Status(0, 1)` in the source. -/
inductive Status where
  | RUNNING
  | STOPPED
deriving DecidableEq, Repr

/-- The numeric value carried by the namedtuple: `STATUS.RUNNING == 0`,
`STATUS.STOPPED == 1`. -/
def statusVal : Status → Nat
  | .RUNNING => 0
  | .STOPPED => 1

/-- The field name of a status value: `STATUS._fields[STATUS.index(status)]`. -/
def statusField : Status → String
  | .RUNNING => "RUNNING"
  | .STOPPED => "STOPPED"

/-- `STATUS._asdict()[token]` as a total lookup: the namedtuple dict maps
the field names to their values. -/
def statusAsdict (tok : String) : Option Status :=
  if tok = "RUNNING" then some Status.RUNNING
  else if tok = "STOPPED" then some Status.STOPPED
  else none

/-- The external commands the fabfile can issue.  The literal command
strings (with sudo/supervisor-config prefixes) are abstracted to tags. -/
inductive Cmd where
  | rabbitmqStatus
  | rabbitmqStart (detached : Bool)
  | rabbitmqStop
  | supervisorStart
  | supervisorStop
  | supervisorStatusPipe
  | celeryWorker
deriving DecidableEq, Repr

/-- One observable step of a task: an external command run, or a line
printed to stdout. -/
inductive Event where
  | run (c : Cmd)
  | printed (s : String)
deriving DecidableEq, Repr

/-- The errors that can escape a task: a Python `Exception`, the `KeyError`
re-raised by `status_celery`, or fabric aborting on a failed `local` call
that was not wrapped in `warn_only`. -/
inductive Err where
  | exception (msg : String)
  | keyError (key : String)
  | commandFailed (c : Cmd) (code : Int)
deriving DecidableEq, Repr

deriving instance DecidableEq for Except

/-- What fabric `local(..., capture=True)` hands back: the exit code and
the (whitespace-stripped) captured stdout. -/
structure LocalResult where
  return_code : Int
  stdout : String
deriving DecidableEq, Repr

/-- The oracle for the external world: the exit code (and captured stdout
where consumed) that each command produces in this run. -/
structure Env where
  rabbitmqStatusCode : Int
  rabbitmqStartCode : Int
  rabbitmqStopCode : Int
  supervisorStartCode : Int
  supervisorStopCode : Int
  celeryStatusToken : String
  celeryStatusCode : Int
  celeryWorkerCode : Int
deriving Repr

/-- The result the environment assigns to each command. -/
def Env.result (env : Env) : Cmd → LocalResult
  | .rabbitmqStatus => ⟨env.rabbitmqStatusCode, ""⟩
  | .rabbitmqStart _ => ⟨env.rabbitmqStartCode, ""⟩
  | .rabbitmqStop => ⟨env.rabbitmqStopCode, ""⟩
  | .supervisorStart => ⟨env.supervisorStartCode, ""⟩
  | .supervisorStop => ⟨env.supervisorStopCode, ""⟩
  | .supervisorStatusPipe => ⟨env.celeryStatusCode, env.celeryStatusToken⟩
  | .celeryWorker => ⟨env.celeryWorkerCode, ""⟩

/-- A task computation: the trace of events it emitted (also when it ends
in an error) together with its outcome. -/
def M (α : Type) : Type := List Event × Except Err α

/-- Return without side effects. -/
def M.ret {α : Type} (a : α) : M α := ([], Except.ok a)

/-- Raise an exception (the Python `raise`). -/
def M.raise {α : Type} (e : Err) : M α := ([], Except.error e)

/-- Sequencing: a raised error skips the continuation but keeps the trace
emitted so far. -/
def M.bind {α β : Type} (x : M α) (f : α → M β) : M β :=
  match x with
  | (tr, Except.error e) => (tr, Except.error e)
  | (tr, Except.ok a) =>
    let y := f a
    (tr ++ y.1, y.2)

/-- Emit one printed line. -/
def M.print (s : String) : M Unit := ([Event.printed s], Except.ok ())

/-- Run a pure `Except` step inside a task. -/
def liftExc {α : Type} (x : Except Err α) : M α := ([], x)

/-- fabric `local`: runs the command (so it always lands in the trace) and,
unless `warnOnly` holds, aborts with `SystemExit` when the exit code is
nonzero.  Under `warn_only` the caller inspects `return_code` itself. -/
def runLocal (env : Env) (c : Cmd) (warnOnly : Bool) : M LocalResult :=
  let r := env.result c
  if warnOnly = true ∨ r.return_code = 0 then ([Event.run c], Except.ok r)
  else ([Event.run c], Except.error (Err.commandFailed c r.return_code))

/-- The Python values a task argument can take in the cases we model. -/
inductive PyVal where
  | bool (b : Bool)
  | str (s : String)
  | int (n : Int)
  | noneVal
deriving DecidableEq, Repr

/-- A single-quote character, by code point. -/
def squote : String := String.singleton (Char.ofNat 39)

/-- `str(type(value))` for the modelled Python values (Python 2 rendering). -/
def pyTypeName : PyVal → String
  | .bool _ => "<type " ++ squote ++ "bool" ++ squote ++ ">"
  | .str _ => "<type " ++ squote ++ "str" ++ squote ++ ">"
  | .int _ => "<type " ++ squote ++ "int" ++ squote ++ ">"
  | .noneVal => "<type " ++ squote ++ "NoneType" ++ squote ++ ">"

/-- ASCII lower-casing: the semantics of Python 2 `str.lower()` on byte
strings (only the 26 ASCII capitals are lowered). -/
def pyLower (s : String) : String :=
  String.mk (s.data.map (fun c =>
    if 65 ≤ c.toNat ∧ c.toNat ≤ 90 then Char.ofNat (c.toNat + 32) else c))

/-- `parse_bool(value)`: booleans pass through, strings compare their
lower-casing against the literal true-string, anything else raises. -/
def parse_bool : PyVal → Except Err Bool
  | .bool b => Except.ok b
  | .str s => Except.ok (pyLower s == "true")
  | v => Except.error (Err.exception ("Cannot convert " ++ pyTypeName v ++ " to bool"))

/-- `print_status(status, task_name)`. -/
def print_status (status : Status) (task_name : String) : M Unit :=
  M.print (task_name ++ " status: " ++ statusField status)

/-- `start_rabbitmq(detached=True)`: parse the flag, then run the broker
start command (appending the detach flag when requested); not `warn_only`,
so a nonzero exit aborts. -/
def start_rabbitmq (env : Env) (detached : PyVal) : M Unit :=
  M.bind (liftExc (parse_bool detached)) (fun d =>
  M.bind (runLocal env (Cmd.rabbitmqStart d) false) (fun _ =>
  M.ret ()))

/-- `stop_rabbitmq()`: broker stop under `settings(warn_only=True)`. -/
def stop_rabbitmq (env : Env) : M Unit :=
  M.bind (runLocal env Cmd.rabbitmqStop true) (fun _ => M.ret ())

/-- `status_rabbitmq()`: broker status under `warn_only` + `quiet`, then
exit-code mapping (2 or 69 stopped, 0 running, otherwise raise), then the
debug `print status` line and the `print_status` line. -/
def status_rabbitmq (env : Env) : M Status :=
  M.bind (runLocal env Cmd.rabbitmqStatus true) (fun res =>
  M.bind
    (if res.return_code = 2 ∨ res.return_code = 69 then M.ret Status.STOPPED
     else if res.return_code = 0 then M.ret Status.RUNNING
     else M.raise (Err.exception ("Rabbitmq: unknown status " ++ toString res.return_code)))
    (fun status =>
  M.bind (M.print (toString (statusVal status))) (fun _ =>
  M.bind (print_status status "rabbitmq") (fun _ =>
  M.ret status))))

/-- `start_celery(detached=True)`: query the broker, start it (with the
default detached flag) when stopped, then parse this task's own flag and
start the pool via supervisor or run the worker in the foreground. -/
def start_celery (env : Env) (detached : PyVal) : M Unit :=
  M.bind (status_rabbitmq env) (fun s =>
  M.bind (if s = Status.STOPPED then start_rabbitmq env (PyVal.bool true) else M.ret ()) (fun _ =>
  M.bind (liftExc (parse_bool detached)) (fun d =>
  M.bind (if d = true then runLocal env Cmd.supervisorStart false
          else runLocal env Cmd.celeryWorker false) (fun _ =>
  M.ret ()))))

/-- `stop_celery()`: the supervisor stop action, not wrapped in
`warn_only`. -/
def stop_celery (env : Env) : M Unit :=
  M.bind (runLocal env Cmd.supervisorStop false) (fun _ => M.ret ())

/-- `status_celery()`: the supervisor status pipeline (capture, not
`warn_only`), then the namedtuple-dict lookup with the `KeyError` fallback
for the STARTING and FATAL tokens, then `print_status`. -/
def status_celery (env : Env) : M Status :=
  M.bind (runLocal env Cmd.supervisorStatusPipe false) (fun res =>
  M.bind
    (match statusAsdict res.stdout with
     | some s => M.ret s
     | none =>
       if res.stdout = "STARTING" then M.ret Status.RUNNING
       else if res.stdout = "FATAL" then M.ret Status.STOPPED
       else M.raise (Err.keyError res.stdout))
    (fun status =>
  M.bind (print_status status "celery") (fun _ =>
  M.ret status)))

/-- `stop_all()`: `stop_celery()` then `stop_rabbitmq()`. -/
def stop_all (env : Env) : M Unit :=
  M.bind (stop_celery env) (fun _ => stop_rabbitmq env)

/-- The external commands in a trace, in order (printed lines dropped). -/
def runsOf (tr : List Event) : List Cmd :=
  tr.filterMap (fun e => match e with | Event.run c => some c | Event.printed _ => none)


/-! ## Evaluation lemmas -/

theorem M.bind_ok {α β : Type} (tr : List Event) (a : α) (f : α → M β) :
    M.bind (tr, Except.ok a) f = (tr ++ (f a).1, (f a).2) := rfl

theorem M.bind_err {α β : Type} (tr : List Event) (e : Err) (f : α → M β) :
    M.bind (tr, Except.error e) f = (tr, Except.error e) := rfl

theorem M.fst_bind_ret_unit {α : Type} (x : M α) :
    (M.bind x (fun _ => M.ret ())).1 = x.1 := by
  rcases x with ⟨tr, r⟩
  cases r <;> simp [M.bind, M.ret]

theorem M.fst_bind_pure {α : Type} (x : M α) :
    (M.bind x (fun _ => (([], Except.ok ()) : M Unit))).1 = x.1 := by
  rcases x with ⟨tr, r⟩
  cases r <;> simp [M.bind]

theorem runLocal_warn (env : Env) (c : Cmd) :
    runLocal env c true = ([Event.run c], Except.ok (env.result c)) := by
  unfold runLocal
  rw [if_pos (Or.inl rfl)]

theorem runLocal_fst (env : Env) (c : Cmd) (w : Bool) :
    (runLocal env c w).1 = [Event.run c] := by
  simp only [runLocal]
  split <;> rfl

theorem runLocal_strict_ok (env : Env) (c : Cmd) (h : (env.result c).return_code = 0) :
    runLocal env c false = ([Event.run c], Except.ok (env.result c)) := by
  unfold runLocal
  rw [if_pos (Or.inr h)]

theorem runLocal_strict_fail (env : Env) (c : Cmd)
    (h : (env.result c).return_code ≠ 0) :
    runLocal env c false =
      ([Event.run c], Except.error (Err.commandFailed c (env.result c).return_code)) := by
  unfold runLocal
  rw [if_neg]
  simp [h]

theorem status_rabbitmq_stopped (env : Env)
    (h : env.rabbitmqStatusCode = 2 ∨ env.rabbitmqStatusCode = 69) :
    status_rabbitmq env =
      ([Event.run Cmd.rabbitmqStatus, Event.printed "1",
        Event.printed "rabbitmq status: STOPPED"], Except.ok Status.STOPPED) := by
  rcases h with h | h <;>
    simp [status_rabbitmq, runLocal_warn, Env.result, h, M.bind, M.ret, M.print,
      print_status, statusVal, statusField] <;> rfl

theorem status_rabbitmq_running (env : Env) (h : env.rabbitmqStatusCode = 0) :
    status_rabbitmq env =
      ([Event.run Cmd.rabbitmqStatus, Event.printed "0",
        Event.printed "rabbitmq status: RUNNING"], Except.ok Status.RUNNING) := by
  simp [status_rabbitmq, runLocal_warn, Env.result, h, M.bind, M.ret, M.print,
    print_status, statusVal, statusField]
  rfl

theorem status_rabbitmq_unknown (env : Env) (h2 : env.rabbitmqStatusCode ≠ 2)
    (h69 : env.rabbitmqStatusCode ≠ 69) (h0 : env.rabbitmqStatusCode ≠ 0) :
    status_rabbitmq env =
      ([Event.run Cmd.rabbitmqStatus],
       Except.error (Err.exception
         ("Rabbitmq: unknown status " ++ toString env.rabbitmqStatusCode))) := by
  simp [status_rabbitmq, runLocal_warn, Env.result, h2, h69, h0, M.bind, M.raise]

/-- C1: for every broker status query, `status_rabbitmq` returns RUNNING on
exit code 0, STOPPED on exit codes 2 and 69, and on any other exit code
fails with the unknown-status exception naming the offending code, never
defaulting to either status. -/
theorem C1_status_rabbitmq_exit_codes (env : Env) :
    (env.rabbitmqStatusCode = 0 →
      (status_rabbitmq env).2 = Except.ok Status.RUNNING) ∧
    (env.rabbitmqStatusCode = 2 ∨ env.rabbitmqStatusCode = 69 →
      (status_rabbitmq env).2 = Except.ok Status.STOPPED) ∧
    (env.rabbitmqStatusCode ≠ 0 → env.rabbitmqStatusCode ≠ 2 →
     env.rabbitmqStatusCode ≠ 69 →
      (status_rabbitmq env).2 =
        Except.error (Err.exception
          ("Rabbitmq: unknown status " ++ toString env.rabbitmqStatusCode))) := by
  refine ⟨fun h0 => ?_, fun h => ?_, fun h0 h2 h69 => ?_⟩
  · rw [status_rabbitmq_running env h0]
  · rw [status_rabbitmq_stopped env h]
  · rw [status_rabbitmq_unknown env h2 h69 h0]

/-- Witness for C1 at exit codes 0, 69 and 7. -/
theorem C1_witness :
    (status_rabbitmq ⟨0, 0, 0, 0, 0, "", 0, 0⟩).2 = Except.ok Status.RUNNING ∧
    (status_rabbitmq ⟨69, 0, 0, 0, 0, "", 0, 0⟩).2 = Except.ok Status.STOPPED ∧
    (status_rabbitmq ⟨7, 0, 0, 0, 0, "", 0, 0⟩).2 =
      Except.error (Err.exception ("Rabbitmq: unknown status " ++ toString (7 : Int))) :=
  ⟨(C1_status_rabbitmq_exit_codes _).1 rfl,
   (C1_status_rabbitmq_exit_codes _).2.1 (Or.inr rfl),
   (C1_status_rabbitmq_exit_codes _).2.2 (by norm_num) (by norm_num) (by norm_num)⟩

/-- C2: for every worker-pool status query (whose status pipeline exits 0),
`status_celery` maps the extracted token RUNNING and STOPPED to themselves,
STARTING to RUNNING, FATAL to STOPPED, and fails with the re-raised
`KeyError` on any other token instead of returning a default. -/
theorem C2_status_celery_tokens (env : Env) (h : env.celeryStatusCode = 0) :
    (env.celeryStatusToken = "RUNNING" →
      (status_celery env).2 = Except.ok Status.RUNNING) ∧
    (env.celeryStatusToken = "STOPPED" →
      (status_celery env).2 = Except.ok Status.STOPPED) ∧
    (env.celeryStatusToken = "STARTING" →
      (status_celery env).2 = Except.ok Status.RUNNING) ∧
    (env.celeryStatusToken = "FATAL" →
      (status_celery env).2 = Except.ok Status.STOPPED) ∧
    (env.celeryStatusToken ≠ "RUNNING" → env.celeryStatusToken ≠ "STOPPED" →
     env.celeryStatusToken ≠ "STARTING" → env.celeryStatusToken ≠ "FATAL" →
      (status_celery env).2 = Except.error (Err.keyError env.celeryStatusToken)) := by
  have hrun := runLocal_strict_ok env Cmd.supervisorStatusPipe h
  refine ⟨fun h1 => ?_, fun h1 => ?_, fun h1 => ?_, fun h1 => ?_,
    fun h1 h2 h3 h4 => ?_⟩ <;>
    simp [status_celery, hrun, Env.result, M.bind, M.ret, M.raise, statusAsdict,
      h1, print_status, M.print]
  · simp [h2, h3, h4]

/-- Witness for C2 at the five token classes. -/
theorem C2_witness :
    (status_celery ⟨0, 0, 0, 0, 0, "RUNNING", 0, 0⟩).2 = Except.ok Status.RUNNING ∧
    (status_celery ⟨0, 0, 0, 0, 0, "STOPPED", 0, 0⟩).2 = Except.ok Status.STOPPED ∧
    (status_celery ⟨0, 0, 0, 0, 0, "STARTING", 0, 0⟩).2 = Except.ok Status.RUNNING ∧
    (status_celery ⟨0, 0, 0, 0, 0, "FATAL", 0, 0⟩).2 = Except.ok Status.STOPPED ∧
    (status_celery ⟨0, 0, 0, 0, 0, "BACKOFF", 0, 0⟩).2 =
      Except.error (Err.keyError "BACKOFF") :=
  ⟨(C2_status_celery_tokens _ rfl).1 rfl,
   (C2_status_celery_tokens _ rfl).2.1 rfl,
   (C2_status_celery_tokens _ rfl).2.2.1 rfl,
   (C2_status_celery_tokens _ rfl).2.2.2.1 rfl,
   (C2_status_celery_tokens _ rfl).2.2.2.2 (by decide) (by decide) (by decide)
     (by decide)⟩

/-- C7: `stop_rabbitmq` runs the broker stop command under `warn_only`, so
it completes without error for every exit code the stop command returns; in
particular stopping an already-stopped broker (nonzero exit) is no error. -/
theorem C7_stop_rabbitmq_warn_only (env : Env) :
    stop_rabbitmq env = ([Event.run Cmd.rabbitmqStop], Except.ok ()) := by
  simp [stop_rabbitmq, runLocal_warn, M.bind, M.ret]

/-- Witness for C7: a stopped broker makes `rabbitmqctl stop` exit 2, and
`stop_rabbitmq` still completes without error. -/
theorem C7_witness :
    stop_rabbitmq ⟨0, 0, 2, 0, 0, "", 0, 0⟩ =
      ([Event.run Cmd.rabbitmqStop], Except.ok ()) :=
  C7_stop_rabbitmq_warn_only _

/-- C10: `parse_bool` passes booleans through unchanged; on strings it never
raises and returns true exactly when the lower-cased string is the literal
true-string (so "True" and "TRUE" map to true and everything else to
false); it raises precisely on values that are neither booleans nor
strings. -/
theorem C10_parse_bool_spec :
    (∀ b : Bool, parse_bool (PyVal.bool b) = Except.ok b) ∧
    (∀ s : String, parse_bool (PyVal.str s) = Except.ok true ∨
      parse_bool (PyVal.str s) = Except.ok false) ∧
    (∀ s : String, parse_bool (PyVal.str s) = Except.ok true ↔ pyLower s = "true") ∧
    parse_bool (PyVal.str "True") = Except.ok true ∧
    parse_bool (PyVal.str "TRUE") = Except.ok true ∧
    parse_bool (PyVal.str "no") = Except.ok false ∧
    (∀ n : Int, ∃ msg, parse_bool (PyVal.int n) = Except.error (Err.exception msg)) ∧
    (∃ msg, parse_bool PyVal.noneVal = Except.error (Err.exception msg)) := by
  refine ⟨fun b => rfl, fun s => ?_, fun s => ?_, by decide, by decide, by decide,
    fun n => ⟨_, rfl⟩, ⟨_, rfl⟩⟩
  · rcases hb : (pyLower s == "true") with _ | _
    · exact Or.inr (by simp [parse_bool, hb])
    · exact Or.inl (by simp [parse_bool, hb])
  · simp [parse_bool]

/-- Witness for C10 at a boolean and at the capitalized true-string. -/
theorem C10_witness :
    parse_bool (PyVal.bool false) = Except.ok false ∧
    parse_bool (PyVal.str "True") = Except.ok true :=
  ⟨C10_parse_bool_spec.1 false, C10_parse_bool_spec.2.2.2.1⟩

theorem start_rabbitmq_true_ok (env : Env) (h : env.rabbitmqStartCode = 0) :
    start_rabbitmq env (PyVal.bool true) =
      ([Event.run (Cmd.rabbitmqStart true)], Except.ok ()) := by
  have hr := runLocal_strict_ok env (Cmd.rabbitmqStart true) h
  simp [start_rabbitmq, liftExc, parse_bool, M.bind, M.ret, hr]

theorem start_rabbitmq_true_fail (env : Env) (h : env.rabbitmqStartCode ≠ 0) :
    start_rabbitmq env (PyVal.bool true) =
      ([Event.run (Cmd.rabbitmqStart true)],
       Except.error (Err.commandFailed (Cmd.rabbitmqStart true)
         env.rabbitmqStartCode)) := by
  have hr := runLocal_strict_fail env (Cmd.rabbitmqStart true) h
  simp [start_rabbitmq, liftExc, parse_bool, M.bind, M.ret, hr, Env.result]

/-- The command trace of `start_celery`, for every environment and every
detached argument: the broker status query always comes first; the broker
start command appears (exactly once) when and only when the query mapped to
STOPPED; the pool action appears when the preceding steps succeeded and the
flag parsed. -/
theorem start_celery_runs (env : Env) (v : PyVal) :
    runsOf (start_celery env v).1 =
      Cmd.rabbitmqStatus ::
        (if env.rabbitmqStatusCode = 2 ∨ env.rabbitmqStatusCode = 69 then
          Cmd.rabbitmqStart true ::
            (if env.rabbitmqStartCode = 0 then
              match parse_bool v with
              | Except.ok true => [Cmd.supervisorStart]
              | Except.ok false => [Cmd.celeryWorker]
              | Except.error _ => []
             else [])
         else if env.rabbitmqStatusCode = 0 then
          match parse_bool v with
          | Except.ok true => [Cmd.supervisorStart]
          | Except.ok false => [Cmd.celeryWorker]
          | Except.error _ => []
         else []) := by
  by_cases h2 : env.rabbitmqStatusCode = 2 ∨ env.rabbitmqStatusCode = 69
  · have hs := status_rabbitmq_stopped env h2
    by_cases hb : env.rabbitmqStartCode = 0
    · have hbr := start_rabbitmq_true_ok env hb
      cases hv : parse_bool v with
      | error e =>
        simp [start_celery, hs, hbr, hv, h2, hb, M.bind_ok, M.bind_err, liftExc,
          M.ret, runsOf]
      | ok d =>
        cases d <;>
          simp [start_celery, hs, hbr, hv, h2, hb, M.bind_ok, M.bind_err, liftExc,
            M.ret, M.fst_bind_ret_unit, M.fst_bind_pure, runLocal_fst, runsOf]
    · have hbr := start_rabbitmq_true_fail env hb
      simp [start_celery, hs, hbr, h2, hb, M.bind_ok, M.bind_err, liftExc, M.ret,
        runsOf]
  · by_cases h0 : env.rabbitmqStatusCode = 0
    · have hs := status_rabbitmq_running env h0
      cases hv : parse_bool v with
      | error e =>
        simp [start_celery, hs, hv, h2, h0, M.bind_ok, M.bind_err, liftExc, M.ret,
          runsOf]
      | ok d =>
        cases d <;>
          simp [start_celery, hs, hv, h2, h0, M.bind_ok, M.bind_err, liftExc, M.ret,
            M.fst_bind_ret_unit, M.fst_bind_pure, runLocal_fst, runsOf]
    · push_neg at h2
      have hs := status_rabbitmq_unknown env h2.1 h2.2 h0
      simp [start_celery, hs, h2.1, h2.2, h0, M.bind_err, runsOf]

/-- C3: whenever the broker status query maps to STOPPED (exit code 2 or
69) and the broker start command succeeds, `start_celery` issues the broker
start exactly once, before the worker-pool start action; when the query
maps to RUNNING (exit code 0) the broker start is never issued. -/
theorem C3_start_celery_broker_first (env : Env) (v : PyVal) (d : Bool)
    (hv : parse_bool v = Except.ok d) (hstart : env.rabbitmqStartCode = 0) :
    (env.rabbitmqStatusCode = 2 ∨ env.rabbitmqStatusCode = 69 →
      runsOf (start_celery env v).1 =
        [Cmd.rabbitmqStatus, Cmd.rabbitmqStart true,
         if d = true then Cmd.supervisorStart else Cmd.celeryWorker]) ∧
    (env.rabbitmqStatusCode = 0 →
      runsOf (start_celery env v).1 =
        [Cmd.rabbitmqStatus,
         if d = true then Cmd.supervisorStart else Cmd.celeryWorker]) := by
  constructor
  · intro h
    rw [start_celery_runs, hv]
    cases d <;> simp [h, hstart]
  · intro h
    have hne2 : env.rabbitmqStatusCode ≠ 2 := by rw [h]; norm_num
    have hne69 : env.rabbitmqStatusCode ≠ 69 := by rw [h]; norm_num
    rw [start_celery_runs, hv]
    cases d <;> simp [h, hne2, hne69]

/-- Witness for C3: broker stopped with exit 69 and a string flag parsing
to true; and broker running with exit 0. -/
theorem C3_witness :
    runsOf (start_celery ⟨69, 0, 0, 0, 0, "", 0, 0⟩ (PyVal.str "True")).1 =
      [Cmd.rabbitmqStatus, Cmd.rabbitmqStart true, Cmd.supervisorStart] ∧
    runsOf (start_celery ⟨0, 0, 0, 0, 0, "", 0, 0⟩ (PyVal.bool true)).1 =
      [Cmd.rabbitmqStatus, Cmd.supervisorStart] := by
  constructor
  · have h := (C3_start_celery_broker_first ⟨69, 0, 0, 0, 0, "", 0, 0⟩
      (PyVal.str "True") true (by decide) rfl).1 (Or.inr rfl)
    simpa using h
  · have h := (C3_start_celery_broker_first ⟨0, 0, 0, 0, 0, "", 0, 0⟩
      (PyVal.bool true) true rfl rfl).2 rfl
    simpa using h

/-- C4 counterexample: when the supervisor stop command exits 1, `stop_all`
aborts inside `stop_celery` (which is not run under `warn_only`) and the
broker stop command is never invoked, refuting the non-short-circuiting
part of the claim. -/
theorem C4_counterexample :
    (stop_all ⟨0, 0, 0, 0, 1, "", 0, 0⟩).2 =
      Except.error (Err.commandFailed Cmd.supervisorStop 1) ∧
    runsOf (stop_all ⟨0, 0, 0, 0, 1, "", 0, 0⟩).1 = [Cmd.supervisorStop] ∧
    Cmd.rabbitmqStop ∉ runsOf (stop_all ⟨0, 0, 0, 0, 1, "", 0, 0⟩).1 := by
  refine ⟨rfl, rfl, by decide⟩

/-- C4 (amended): `stop_all` always invokes the worker-pool stop first;
when that command exits 0 the broker stop always follows (and succeeds for
every broker stop exit code, being `warn_only`); when the pool stop command
exits nonzero, `stop_all` aborts and the broker stop is not attempted. -/
theorem C4_stop_all_order (env : Env) :
    (env.supervisorStopCode = 0 →
      stop_all env =
        ([Event.run Cmd.supervisorStop, Event.run Cmd.rabbitmqStop],
         Except.ok ())) ∧
    (env.supervisorStopCode ≠ 0 →
      stop_all env =
        ([Event.run Cmd.supervisorStop],
         Except.error (Err.commandFailed Cmd.supervisorStop
           env.supervisorStopCode))) ∧
    (runsOf (stop_all env).1).head? = some Cmd.supervisorStop := by
  refine ⟨fun h => ?_, fun h => ?_, ?_⟩
  · have h1 := runLocal_strict_ok env Cmd.supervisorStop h
    simp [stop_all, stop_celery, stop_rabbitmq, h1, runLocal_warn, M.bind, M.ret]
  · have h1 := runLocal_strict_fail env Cmd.supervisorStop h
    simp [stop_all, stop_celery, h1, M.bind, M.ret, Env.result]
  · by_cases h : env.supervisorStopCode = 0
    · have h1 := runLocal_strict_ok env Cmd.supervisorStop h
      simp [stop_all, stop_celery, stop_rabbitmq, h1, runLocal_warn, M.bind, M.ret,
        runsOf]
    · have h1 := runLocal_strict_fail env Cmd.supervisorStop h
      simp [stop_all, stop_celery, h1, M.bind, M.ret, runsOf]

/-- Witness for C4 (amended): pool stop exits 0, broker stop exits 3, and
both stops run in order with no error. -/
theorem C4_witness :
    stop_all ⟨0, 0, 3, 0, 0, "", 0, 0⟩ =
      ([Event.run Cmd.supervisorStop, Event.run Cmd.rabbitmqStop],
       Except.ok ()) :=
  (C4_stop_all_order _).1 rfl

/-- C5 counterexample: `start_celery` called with a non-boolean,
non-string flag while the broker reports RUNNING fails with the
invalid-argument exception, but only after the broker status command has
already run, refuting "surfaced before any external command runs". -/
theorem C5_counterexample :
    (start_celery ⟨0, 0, 0, 0, 0, "", 0, 0⟩ PyVal.noneVal).2 =
      Except.error (Err.exception
        ("Cannot convert " ++ pyTypeName PyVal.noneVal ++ " to bool")) ∧
    runsOf (start_celery ⟨0, 0, 0, 0, 0, "", 0, 0⟩ PyVal.noneVal).1 =
      [Cmd.rabbitmqStatus] := by
  exact ⟨rfl, rfl⟩

/-- C5 (amended): an invalid detached flag is fatal in both start
operations, and in `start_rabbitmq` it is surfaced before any external
command; in `start_celery` it is surfaced before the pool start action
(neither pool action ever runs), but after the broker status query — and
after the broker start, when the broker was stopped. -/
theorem C5_start_invalid_flag (env : Env) (v : PyVal) (e : Err)
    (hv : parse_bool v = Except.error e) :
    start_rabbitmq env v = ([], Except.error e) ∧
    Cmd.supervisorStart ∉ runsOf (start_celery env v).1 ∧
    Cmd.celeryWorker ∉ runsOf (start_celery env v).1 ∧
    (env.rabbitmqStatusCode = 0 →
      (start_celery env v).2 = Except.error e ∧
      runsOf (start_celery env v).1 = [Cmd.rabbitmqStatus]) := by
  refine ⟨?_, ?_, ?_, fun h0 => ⟨?_, ?_⟩⟩
  · simp [start_rabbitmq, liftExc, hv, M.bind_err]
  · rw [start_celery_runs, hv]
    split_ifs <;> simp
  · rw [start_celery_runs, hv]
    split_ifs <;> simp
  · have hs := status_rabbitmq_running env h0
    simp [start_celery, hs, M.bind_ok, M.bind_err, liftExc, hv, M.ret]
  · have hne2 : env.rabbitmqStatusCode ≠ 2 := by rw [h0]; norm_num
    have hne69 : env.rabbitmqStatusCode ≠ 69 := by rw [h0]; norm_num
    rw [start_celery_runs, hv]
    simp [h0, hne2, hne69]

/-- Witness for C5 (amended) at an integer flag with the broker running. -/
theorem C5_witness :
    start_rabbitmq ⟨0, 0, 0, 0, 0, "", 0, 0⟩ (PyVal.int 3) =
      ([], Except.error (Err.exception
        ("Cannot convert " ++ pyTypeName (PyVal.int 3) ++ " to bool"))) ∧
    Cmd.supervisorStart ∉
      runsOf (start_celery ⟨0, 0, 0, 0, 0, "", 0, 0⟩ (PyVal.int 3)).1 :=
  ⟨(C5_start_invalid_flag ⟨0, 0, 0, 0, 0, "", 0, 0⟩ (PyVal.int 3) _ rfl).1,
   (C5_start_invalid_flag ⟨0, 0, 0, 0, 0, "", 0, 0⟩ (PyVal.int 3) _ rfl).2.1⟩

/-- C6 counterexample: with broker status exit code 2 the single status
query maps to STOPPED, the broker is started, and the pool start action is
issued without any further status query — so no broker status query
returning RUNNING ever precedes the pool start, refuting the claim that a
RUNNING result is re-confirmed. -/
theorem C6_counterexample :
    (start_celery ⟨2, 0, 0, 0, 0, "", 0, 0⟩ (PyVal.bool true)).2 =
      Except.ok () ∧
    runsOf (start_celery ⟨2, 0, 0, 0, 0, "", 0, 0⟩ (PyVal.bool true)).1 =
      [Cmd.rabbitmqStatus, Cmd.rabbitmqStart true, Cmd.supervisorStart] ∧
    (status_rabbitmq ⟨2, 0, 0, 0, 0, "", 0, 0⟩).2 = Except.ok Status.STOPPED := by
  exact ⟨rfl, rfl, rfl⟩

/-- C6 (amended): every invocation of `start_celery` issues exactly one
broker status query, as its first external command; after a STOPPED result
the broker start command is issued and the pool start proceeds on the
start command succeeding, without the broker status being re-queried. -/
theorem C6_start_celery_status_once (env : Env) (v : PyVal) :
    (runsOf (start_celery env v).1).count Cmd.rabbitmqStatus = 1 ∧
    (runsOf (start_celery env v).1).head? = some Cmd.rabbitmqStatus := by
  constructor
  · rw [start_celery_runs]
    cases hv : parse_bool v with
    | error e => split_ifs <;> simp [List.count_cons]
    | ok d => cases d <;> (split_ifs <;> simp [List.count_cons])
  · rw [start_celery_runs]
    rfl

/-- Witness for C6 (amended) at broker status exit 2 with a detached start. -/
theorem C6_witness :
    (runsOf (start_celery ⟨2, 0, 0, 0, 0, "", 0, 0⟩ (PyVal.bool true)).1).count
        Cmd.rabbitmqStatus = 1 :=
  (C6_start_celery_status_once ⟨2, 0, 0, 0, 0, "", 0, 0⟩ (PyVal.bool true)).1

/-- C8: `stop_celery` completes without error whenever the supervisor stop
action exits 0 — which is the process manager's behaviour also when the
pool is already stopped or unmanaged — so invoking it on a stopped pool,
or twice in succession, raises no error; and the manager subsequently
reporting the STOPPED token makes `status_celery` observe STOPPED. -/
theorem C8_stop_celery_idempotent (env : Env)
    (h : env.supervisorStopCode = 0) :
    stop_celery env = ([Event.run Cmd.supervisorStop], Except.ok ()) ∧
    M.bind (stop_celery env) (fun _ => stop_celery env) =
      ([Event.run Cmd.supervisorStop, Event.run Cmd.supervisorStop],
       Except.ok ()) ∧
    (env.celeryStatusCode = 0 → env.celeryStatusToken = "STOPPED" →
      (status_celery env).2 = Except.ok Status.STOPPED) := by
  have h1 : stop_celery env = ([Event.run Cmd.supervisorStop], Except.ok ()) := by
    have hr := runLocal_strict_ok env Cmd.supervisorStop h
    simp [stop_celery, hr, M.bind, M.ret]
  refine ⟨h1, ?_, fun hc htok => ?_⟩
  · simp [h1, M.bind]
  · have hrun := runLocal_strict_ok env Cmd.supervisorStatusPipe hc
    simp [status_celery, hrun, Env.result, M.bind, M.ret, statusAsdict, htok,
      print_status, M.print]

/-- Witness for C8: stop exits 0, the manager then reports STOPPED. -/
theorem C8_witness :
    stop_celery ⟨0, 0, 0, 0, 0, "STOPPED", 0, 0⟩ =
      ([Event.run Cmd.supervisorStop], Except.ok ()) ∧
    (status_celery ⟨0, 0, 0, 0, 0, "STOPPED", 0, 0⟩).2 =
      Except.ok Status.STOPPED :=
  ⟨(C8_stop_celery_idempotent _ rfl).1,
   (C8_stop_celery_idempotent _ rfl).2.2 rfl rfl⟩

/-- C9: every status query that succeeds prints the
"service status: VALUE" line naming the queried service and the resolved
status; in particular broker status exit code 2 yields STOPPED and prints
the rabbitmq STOPPED line. -/
theorem C9_status_prints_line (env : Env) :
    (∀ s : Status, (status_rabbitmq env).2 = Except.ok s →
      Event.printed ("rabbitmq status: " ++ statusField s) ∈
        (status_rabbitmq env).1) ∧
    (∀ s : Status, (status_celery env).2 = Except.ok s →
      Event.printed ("celery status: " ++ statusField s) ∈
        (status_celery env).1) ∧
    (env.rabbitmqStatusCode = 2 →
      (status_rabbitmq env).2 = Except.ok Status.STOPPED ∧
      Event.printed "rabbitmq status: STOPPED" ∈ (status_rabbitmq env).1) := by
  refine ⟨fun s hs => ?_, fun s hs => ?_, fun h2 => ?_⟩
  · by_cases hA : env.rabbitmqStatusCode = 2 ∨ env.rabbitmqStatusCode = 69
    · have he := status_rabbitmq_stopped env hA
      rw [he] at hs ⊢
      simp at hs
      subst hs
      simp [statusField]
    · by_cases h0 : env.rabbitmqStatusCode = 0
      · have he := status_rabbitmq_running env h0
        rw [he] at hs ⊢
        simp at hs
        subst hs
        simp [statusField]
      · push_neg at hA
        have he := status_rabbitmq_unknown env hA.1 hA.2 h0
        rw [he] at hs
        simp at hs
  · by_cases hc : env.celeryStatusCode = 0
    · have hrun := runLocal_strict_ok env Cmd.supervisorStatusPipe hc
      by_cases t1 : env.celeryStatusToken = "RUNNING"
      · have he : status_celery env =
            ([Event.run Cmd.supervisorStatusPipe,
              Event.printed "celery status: RUNNING"],
             Except.ok Status.RUNNING) := by
          simp [status_celery, hrun, Env.result, M.bind, M.ret, statusAsdict, t1,
            print_status, M.print, statusField]
        rw [he] at hs ⊢
        simp at hs
        subst hs
        simp [statusField]
      · by_cases t2 : env.celeryStatusToken = "STOPPED"
        · have he : status_celery env =
              ([Event.run Cmd.supervisorStatusPipe,
                Event.printed "celery status: STOPPED"],
               Except.ok Status.STOPPED) := by
            simp [status_celery, hrun, Env.result, M.bind, M.ret, statusAsdict, t2,
              print_status, M.print, statusField]
          rw [he] at hs ⊢
          simp at hs
          subst hs
          simp [statusField]
        · by_cases t3 : env.celeryStatusToken = "STARTING"
          · have he : status_celery env =
                ([Event.run Cmd.supervisorStatusPipe,
                  Event.printed "celery status: RUNNING"],
                 Except.ok Status.RUNNING) := by
              simp [status_celery, hrun, Env.result, M.bind, M.ret, statusAsdict,
                t3, print_status, M.print, statusField]
            rw [he] at hs ⊢
            simp at hs
            subst hs
            simp [statusField]
          · by_cases t4 : env.celeryStatusToken = "FATAL"
            · have he : status_celery env =
                  ([Event.run Cmd.supervisorStatusPipe,
                    Event.printed "celery status: STOPPED"],
                   Except.ok Status.STOPPED) := by
                simp [status_celery, hrun, Env.result, M.bind, M.ret, statusAsdict,
                  t4, print_status, M.print, statusField]
              rw [he] at hs ⊢
              simp at hs
              subst hs
              simp [statusField]
            · have he : (status_celery env).2 =
                  Except.error (Err.keyError env.celeryStatusToken) := by
                simp [status_celery, hrun, Env.result, M.bind, M.ret, M.raise,
                  statusAsdict, t1, t2, t3, t4, print_status, M.print]
              rw [he] at hs
              simp at hs
    · have hrun := runLocal_strict_fail env Cmd.supervisorStatusPipe hc
      rw [status_celery] at hs
      rw [hrun] at hs
      simp [M.bind] at hs
  · have he := status_rabbitmq_stopped env (Or.inl h2)
    rw [he]
    exact ⟨rfl, by simp⟩

/-- Witness for C9 at broker status exit code 2. -/
theorem C9_witness :
    (status_rabbitmq ⟨2, 0, 0, 0, 0, "", 0, 0⟩).2 = Except.ok Status.STOPPED ∧
    Event.printed "rabbitmq status: STOPPED" ∈
      (status_rabbitmq ⟨2, 0, 0, 0, 0, "", 0, 0⟩).1 :=
  (C9_status_prints_line _).2.2 rfl
